import Mathlib

/-!
Verification of the dabblebase-ts client SDK against its specification.

The development shallowly embeds the SDK's logic:
* `Dabblebase.Auth` embeds `createAuthClient`'s `verify` (src/internal/auth.ts),
  with the external `jsonwebtoken` verifier passed in as an oracle.
* `Dabblebase.Storage` embeds `createStorageClient`'s `upload`, `list`,
  `delete` and `getUrl` (src/internal/storage.ts); the `fetch` round trip is
  an oracle from the constructed request to an HTTP response, and each
  operation also returns the list of requests it issued.
* `Dabblebase.Realtime` embeds `createRealtimeClient`'s presence-diff handler,
  the channel-join error continuations and the `disconnect` teardown
  (src/internal/realtime.ts); callback invocations are reified as event
  traces, and the external phoenix socket/channel pair as an explicit state.

Fallible TypeScript code (a `throw`) is embedded as `Except String`;
JavaScript's falsiness of a `string | undefined` value is embedded via
`Option String` together with an emptiness test.
-/

deriving instance DecidableEq for Except

namespace Dabblebase

/-- JavaScript falsiness of a `string | undefined` value: `undefined` and the
empty string are falsy (`!x` is true), every other string is truthy. -/
def strFalsy : Option String → Bool
  | none => true
  | some s => s == ""

namespace Auth

/-- Subject representing an authenticated user (`AuthSubject`). -/
structure AuthSubject where
  id : Int
deriving DecidableEq, Repr, Inhabited

/-- Result of the verification of an authentication token
(`AuthVerificationResult`): `subject` and `error` are each nullable. -/
structure AuthVerificationResult where
  subject : Option AuthSubject
  error : Option String
deriving DecidableEq, Repr

/-- A value thrown by the external `jwt.verify` call: either a JavaScript
`Error` object (with a name and a message) or a non-`Error` value. -/
inductive JwtThrow where
  | errObj (name : String) (msg : String)
  | nonError
deriving DecidableEq, Repr

/-- Oracle for the external `jsonwebtoken` library's `jwt.verify`:
given the token and the PEM public key it either returns the decoded
payload or throws. -/
def JwtVerifier : Type := String → String → Except JwtThrow AuthSubject

/-- PEM wrapping of the verify key, as assembled by `verify`:
`-----BEGIN PUBLIC KEY-----`, a newline, the key, a newline and
`-----END PUBLIC KEY-----`. -/
def pemWrap (key : String) : String :=
  "-----BEGIN PUBLIC KEY-----\n" ++ key ++ "\n-----END PUBLIC KEY-----"

/-- Error message returned when no token is supplied. -/
def notAuthenticatedMsg : String := "The user is not authenticated."

/-- Error thrown when no auth verification key was configured. -/
def noVerifyKeyMsg : String :=
  "❌ (dabblebase): Cannot verify the auth token because no auth verification key was provided to dabblebase client."

/-- Error message produced in the catch branch of `verify`. -/
def verifyCatchMsg : JwtThrow → String
  | .errObj name msg =>
      "❌ (dabblebase): An error occurred while verifying the auth token. "
        ++ name ++ ": " ++ msg
  | .nonError =>
      "❌ (dabblebase): An unexpected error occurred while verifying the auth token."

/-- Embedding of `verify` from `createAuthClient` (src/internal/auth.ts):
a falsy token returns a not-authenticated result; a falsy verify key throws;
otherwise the token is checked against the PEM-wrapped key via `jwt.verify`,
a successful payload becomes the subject and a thrown value becomes the
returned error. -/
def verify (jwtVerify : JwtVerifier) (authVerifyKey : Option String)
    (authToken : Option String) : Except String AuthVerificationResult :=
  if strFalsy authToken then
    .ok { subject := none, error := some notAuthenticatedMsg }
  else if strFalsy authVerifyKey then
    .error noVerifyKeyMsg
  else
    match jwtVerify (authToken.getD "") (pemWrap (authVerifyKey.getD "")) with
    | .ok subject => .ok { subject := some subject, error := none }
    | .error e => .ok { subject := none, error := some (verifyCatchMsg e) }

end Auth

namespace Storage

/-- Metadata for one stored file, as returned by the list endpoint. -/
structure StorageFile where
  key : String
  path : String
  size : Nat
  last_modified : String
deriving DecidableEq, Repr

/-- Configuration captured by `createStorageClient`. -/
structure StorageConfig where
  projectId : String
  dabblebaseUrl : String
  projectToken : Option String
deriving DecidableEq, Repr

/-- An HTTP request as constructed by a storage operation before `fetch`. -/
structure HttpRequest where
  url : String
  method : String
  headers : List (String × String)
  hasFormDataBody : Bool
deriving DecidableEq, Repr

/-- The observable parts of a `fetch` response used by the storage client:
`ok`, `status`, `statusText`, the body text read by `response.text()`, and
the decoded JSON fields read by `response.json()` on the success paths. -/
structure HttpResponse where
  ok : Bool
  status : Nat
  statusText : String
  bodyText : String
  jsonUrl : String
  jsonFiles : List StorageFile
deriving DecidableEq, Repr

/-- Opaque stand-in for a browser File object. A JavaScript File object is
always truthy, so an absent file is exactly `Option.none`. -/
structure FileObj where
  name : String
deriving DecidableEq, Repr

/-- Characters that JavaScript's encodeURIComponent leaves unescaped:
ASCII letters and digits together with hyphen, underscore, period,
exclamation mark, tilde, asterisk, apostrophe and parentheses
(codes 45, 95, 46, 33, 126, 42, 39, 40, 41). -/
def uriUnreserved (c : Char) : Bool :=
  let n := c.toNat
  (65 ≤ n && n ≤ 90) || (97 ≤ n && n ≤ 122) || (48 ≤ n && n ≤ 57) ||
    n == 45 || n == 95 || n == 46 || n == 33 || n == 126 || n == 42 ||
    n == 39 || n == 40 || n == 41

/-- Uppercase hexadecimal digit of a nibble. -/
def hexDigit (n : Nat) : Char :=
  match n % 16 with
  | 0 => '0' | 1 => '1' | 2 => '2' | 3 => '3' | 4 => '4' | 5 => '5'
  | 6 => '6' | 7 => '7' | 8 => '8' | 9 => '9' | 10 => 'A' | 11 => 'B'
  | 12 => 'C' | 13 => 'D' | 14 => 'E' | _ => 'F'

/-- UTF-8 encoding of a unicode scalar value. -/
def utf8Bytes (n : Nat) : List Nat :=
  if n < 128 then [n]
  else if n < 2048 then [192 + n / 64, 128 + n % 64]
  else if n < 65536 then [224 + n / 4096, 128 + n / 64 % 64, 128 + n % 64]
  else [240 + n / 262144, 128 + n / 4096 % 64, 128 + n / 64 % 64, 128 + n % 64]

/-- Percent-escape of one byte: a percent sign and two hex digits. -/
def percentByte (b : Nat) : List Char := ['%', hexDigit (b / 16), hexDigit b]

/-- encodeURIComponent on a single character: unreserved characters pass
through, every other character becomes the percent-escapes of its UTF-8
bytes. -/
def encodeCharUtf8 (c : Char) : List Char :=
  if uriUnreserved c then [c]
  else ((utf8Bytes c.toNat).map percentByte).flatten

/-- Embedding of JavaScript's encodeURIComponent. -/
def encodeURIComponent (s : String) : String :=
  String.mk (s.toList.map encodeCharUtf8).flatten

/-- JavaScript's String.split on the one-character separator "/", over the
underlying character list: splitting the empty string yields one empty
segment, and leading, trailing or doubled separators yield empty segments. -/
def splitSegs : List Char → List (List Char)
  | [] => [[]]
  | c :: rest =>
    if c = '/' then [] :: splitSegs rest
    else
      match splitSegs rest with
      | [] => [[c]]
      | seg :: segs => (c :: seg) :: segs

/-- JavaScript's Array.join with separator "/", over character lists. -/
def joinSegs : List (List Char) → List Char
  | [] => []
  | [x] => x
  | x :: y :: rest => x ++ '/' :: joinSegs (y :: rest)

/-- The per-segment encoding performed by `getUrl`:
`path.split("/").map(encodeURIComponent)`. -/
def encodeSegs (path : String) : List (List Char) :=
  (splitSegs path.toList).map fun seg => (encodeURIComponent (String.mk seg)).toList

/-- Error thrown by `upload` when no file is supplied. -/
def uploadFileMissingMsg : String :=
  "❌ (dabblebase): A file must be provided for upload."

/-- Error thrown by `upload` when no destination path is supplied. -/
def uploadPathMissingMsg : String :=
  "❌ (dabblebase): A destination path must be provided for upload."

/-- Error thrown by `getUrl` when no path is supplied. -/
def viewPathMissingMsg : String :=
  "❌ (dabblebase): A path must be provided for view URL."

/-- Error thrown by `delete` when no destination path is supplied. -/
def deletePathMissingMsg : String :=
  "❌ (dabblebase): A destination path must be provided for deletion."

/-- Error thrown by `upload` on a non-success HTTP status: it interpolates
the status, the status text and the response body text. -/
def uploadFailMsg (status : Nat) (statusText bodyText : String) : String :=
  "❌ (dabblebase): Direct upload failed (" ++ toString status ++ " "
    ++ statusText ++ "). " ++ bodyText

/-- Error thrown by `list` on a non-success HTTP status: it interpolates
the status, the status text and the response body text. -/
def listFailMsg (status : Nat) (statusText bodyText : String) : String :=
  "❌ (dabblebase): Failed to list files (" ++ toString status ++ " "
    ++ statusText ++ "). " ++ bodyText

/-- Error thrown by `delete` on a non-success HTTP status: it interpolates
only the status and the status text; the response body is never read. -/
def deleteFailMsg (status : Nat) (statusText : String) : String :=
  "❌ (dabblebase): Failed to delete the file (" ++ toString status ++ " "
    ++ statusText ++ ")."

/-- Headers produced by `getAuthHeaders`: a JSON content type plus the
project token header when a truthy project token is configured. -/
def getAuthHeaders (cfg : StorageConfig) : List (String × String) :=
  [("Content-Type", "application/json")]
    ++ (if strFalsy cfg.projectToken then []
        else [("X-Project-Token", cfg.projectToken.getD "")])

/-- Embedding of `upload` (src/internal/storage.ts): validates the file and
path, then issues a POST with a form-data body to the upload endpoint; a
non-success response throws an error built from the status, the status text
and the body text, and a success response yields the prefixed file URL.
The first component collects the requests issued. -/
def upload (cfg : StorageConfig) (file : Option FileObj) (path : String)
    (fetch : HttpRequest → HttpResponse) :
    List HttpRequest × Except String String :=
  if file.isNone then
    ([], .error uploadFileMissingMsg)
  else if path == "" then
    ([], .error uploadPathMissingMsg)
  else
    let req : HttpRequest :=
      { url := cfg.dabblebaseUrl ++ "/api/project/" ++ cfg.projectId
            ++ "/storage/upload?path=" ++ encodeURIComponent path,
        method := "POST",
        headers := [("X-Project-Token", cfg.projectToken.getD "")],
        hasFormDataBody := true }
    let response := fetch req
    if !response.ok then
      ([req], .error (uploadFailMsg response.status response.statusText response.bodyText))
    else
      ([req], .ok (cfg.dabblebaseUrl ++ response.jsonUrl))

/-- Embedding of `list` (src/internal/storage.ts): issues a GET to the list
endpoint; a non-success response throws an error built from the status, the
status text and the body text, and a success response yields the decoded
file list. -/
def list (cfg : StorageConfig) (fetch : HttpRequest → HttpResponse) :
    List HttpRequest × Except String (List StorageFile) :=
  let req : HttpRequest :=
    { url := cfg.dabblebaseUrl ++ "/api/project/" ++ cfg.projectId ++ "/storage/list",
      method := "GET",
      headers := getAuthHeaders cfg,
      hasFormDataBody := false }
  let response := fetch req
  if !response.ok then
    ([req], .error (listFailMsg response.status response.statusText response.bodyText))
  else
    ([req], .ok response.jsonFiles)

/-- Embedding of `delete` (src/internal/storage.ts): validates the path,
then issues a DELETE to the delete endpoint; a non-success response throws
an error built from the status and the status text only. -/
def delete (cfg : StorageConfig) (path : String)
    (fetch : HttpRequest → HttpResponse) :
    List HttpRequest × Except String Unit :=
  if path == "" then
    ([], .error deletePathMissingMsg)
  else
    let req : HttpRequest :=
      { url := cfg.dabblebaseUrl ++ "/api/project/" ++ cfg.projectId
            ++ "/storage/delete?path=" ++ encodeURIComponent path,
        method := "DELETE",
        headers := getAuthHeaders cfg,
        hasFormDataBody := false }
    let response := fetch req
    if !response.ok then
      ([req], .error (deleteFailMsg response.status response.statusText))
    else
      ([req], .ok ())

/-- Embedding of `getUrl` (src/internal/storage.ts): a falsy path throws;
otherwise the view URL is built by splitting the path on "/", encoding each
segment with encodeURIComponent, rejoining with "/", and appending the
percent-encoded project token as a query parameter. It is a pure function
of the path and the configuration; no request is issued. -/
def getUrl (cfg : StorageConfig) (path : String) : Except String String :=
  if path == "" then
    .error viewPathMissingMsg
  else
    .ok (cfg.dabblebaseUrl ++ "/api/project/" ++ cfg.projectId ++ "/storage/view/"
      ++ String.mk (joinSegs (encodeSegs path))
      ++ "?X-Project-Token=" ++ encodeURIComponent (cfg.projectToken.getD ""))

end Storage

namespace Realtime

/-- Presence metadata record published by a user. -/
structure PresenceUser where
  online_at : String
deriving DecidableEq, Repr, Inhabited

/-- One observable callback invocation performed by the presence-diff
handler of `listenToPresenceChanges`. -/
inductive PresenceEvent where
  | join (userId : String) (meta : PresenceUser)
  | leave (userId : String) (meta : PresenceUser)
  | state (st : List (String × List PresenceUser))
deriving DecidableEq, Repr

/-- Embedding of the presence_diff handler of `listenToPresenceChanges`
(src/internal/realtime.ts). A presence state is the entry list of the
JavaScript object mapping user id to its metadata list, in insertion order.
The handler walks `diff.joins` invoking onPresenceJoin with the first
metadata entry of each user whose list is non-empty, then walks
`diff.leaves` likewise for onPresenceLeave, and finally invokes
onReceivePresenceState with the spread of `diff.joins` alone. -/
def handlePresenceDiff (joins leaves : List (String × List PresenceUser)) :
    List PresenceEvent :=
  (joins.filterMap fun p =>
    match p.2 with
    | [] => none
    | m :: _ => some (PresenceEvent.join p.1 m))
  ++ (leaves.filterMap fun p =>
    match p.2 with
    | [] => none
    | m :: _ => some (PresenceEvent.leave p.1 m))
  ++ [PresenceEvent.state joins]

/-- One observable action performed by a channel-join error continuation. -/
inductive RtAction where
  | logError (msg : String)
  | connectErrorCallback (err : String)
deriving DecidableEq, Repr

/-- The continuation registered by each listener on
channel.join().receive("error", ...): it logs the failure, invokes the
caller's onConnectError callback when one was provided, and then throws the
fatal error. The first component lists the invocations performed in order;
the second component is the thrown fatal error (the continuation never
returns normally). -/
def joinErrorHandler (logMsg fatalMsg : String) (hasConnectErrorCb : Bool)
    (err : String) : List RtAction × Except String Unit :=
  ([RtAction.logError logMsg]
      ++ (if hasConnectErrorCb then [RtAction.connectErrorCallback err] else []),
    Except.error fatalMsg)

/-- Log line of the database-channel join error continuation. -/
def dbJoinLogMsg : String := "❌ (dabblebase): Failed to join database channel:"

/-- Fatal error of the database-channel join error continuation. -/
def dbJoinFatalMsg : String :=
  "❌ (dabblebase): Unable to connect to the db changes websocket channel."

/-- Log line of the presence-channel join error continuation. -/
def presenceJoinLogMsg : String := "❌ (dabblebase): Failed to join presence channel:"

/-- Fatal error of the presence-channel join error continuation. -/
def presenceJoinFatalMsg : String :=
  "❌ (dabblebase): Unable to connect to the presence websocket channel."

/-- Join error continuation of `listenToDbChanges`. -/
def dbJoinErrorHandler : Bool → String → List RtAction × Except String Unit :=
  joinErrorHandler dbJoinLogMsg dbJoinFatalMsg

/-- Join error continuation of `listenToPresenceChanges`. -/
def presenceJoinErrorHandler : Bool → String → List RtAction × Except String Unit :=
  joinErrorHandler presenceJoinLogMsg presenceJoinFatalMsg

/-- A single-quote character (code 39), used around the channel name in the
broadcast log line. -/
def singleQuote : String := String.singleton (Char.ofNat 39)

/-- Log line of the broadcast-channel join error continuation: the channel
name appears wrapped in single quotes. -/
def broadcastJoinLogMsg (channelName : String) : String :=
  "❌ (dabblebase): Failed to join broadcast channel " ++ singleQuote
    ++ channelName ++ singleQuote ++ ":"

/-- Fatal error of the broadcast-channel join error continuation. -/
def broadcastJoinFatalMsg (channelName : String) : String :=
  "❌ (dabblebase): Unable to connect to the broadcast websocket channel "
    ++ channelName ++ "."

/-- Join error continuation of `listenForBroadcasts` for a given channel
name. -/
def broadcastJoinErrorHandler (channelName : String) :
    Bool → String → List RtAction × Except String Unit :=
  joinErrorHandler (broadcastJoinLogMsg channelName) (broadcastJoinFatalMsg channelName)

/-- State of the external phoenix socket and channel pair held in a
connection's closure, modelling the external WebSocket library as a black
box: whether the socket is open and whether the channel is joined. -/
structure ConnState where
  socketOpen : Bool
  channelJoined : Bool
deriving DecidableEq, Repr

/-- Modelled phoenix `channel.leave()`: marks the channel as left; leaving
an already-left channel is a no-op and does not raise. -/
def channelLeave (s : ConnState) : ConnState := { s with channelJoined := false }

/-- Modelled phoenix `socket.disconnect()`: marks the socket as closed;
disconnecting an already-closed socket is a no-op and does not raise. -/
def socketDisconnect (s : ConnState) : ConnState := { s with socketOpen := false }

/-- The two teardown operations, in the order `disconnect` performs them. -/
inductive TeardownStep where
  | leaveChannel
  | closeSocket
deriving DecidableEq, Repr

/-- The sequence of operations performed by every connection's
`disconnect`: leave the channel, then disconnect the socket. -/
def teardownSteps : List TeardownStep := [TeardownStep.leaveChannel, TeardownStep.closeSocket]

/-- Interpretation of one teardown operation on the connection state. -/
def runTeardownStep : TeardownStep → ConnState → ConnState
  | .leaveChannel, s => channelLeave s
  | .closeSocket, s => socketDisconnect s

/-- Embedding of the `disconnect` closure returned by each of
`listenToDbChanges`, `listenForBroadcasts` and `listenToPresenceChanges`
(src/internal/realtime.ts): run the teardown operations in order. It is a
total state transformer: no step raises. -/
def disconnect (s : ConnState) : ConnState :=
  teardownSteps.foldl (fun st step => runTeardownStep step st) s

end Realtime

end Dabblebase

open Dabblebase Dabblebase.Auth

/-- Example storage configuration used by concrete witnesses. -/
def cfgEx : Storage.StorageConfig :=
  { projectId := "proj1", dabblebaseUrl := "https://db.example",
    projectToken := some "ptok" }

/-- A non-success HTTP response with body text "body-A". -/
def respA : Storage.HttpResponse :=
  { ok := false, status := 500, statusText := "Internal Server Error",
    bodyText := "body-A", jsonUrl := "", jsonFiles := [] }

/-- The same non-success HTTP response except for body text "body-B". -/
def respB : Storage.HttpResponse :=
  { ok := false, status := 500, statusText := "Internal Server Error",
    bodyText := "body-B", jsonUrl := "", jsonFiles := [] }

/-- C4: for a non-empty (truthy) auth token, when the configured verify key is
present and the signature check throws (invalid signature) `verify` returns
the typed result with a null subject and a non-null error, while with no
verify key configured `verify` raises instead of returning a result. -/
theorem verify_invalidSig_returns_missingKey_raises
    (jv : JwtVerifier) (t : String) (ht : t ≠ "")
    (k : String) (hk : k ≠ "") (e : JwtThrow)
    (hjv : jv t (pemWrap k) = .error e) :
    verify jv (some k) (some t)
        = .ok { subject := none, error := some (verifyCatchMsg e) }
      ∧ verify jv none (some t) = .error noVerifyKeyMsg := by
  have ht' : strFalsy (some t) = false := by
    simp [strFalsy, ht]
  have hk' : strFalsy (some k) = false := by
    simp [strFalsy, hk]
  constructor
  · simp [verify, ht', hk', hjv]
  · simp [verify, ht', strFalsy, ht]

/-- C4 witness: a concrete verifier that rejects the signature, token "tok"
and key "key". -/
theorem verify_invalidSig_returns_missingKey_raises_witness :
    verify (fun _ _ => .error (JwtThrow.errObj "JsonWebTokenError" "invalid signature"))
        (some "key") (some "tok")
        = .ok { subject := none,
                error := some (verifyCatchMsg
                  (JwtThrow.errObj "JsonWebTokenError" "invalid signature")) }
      ∧ verify (fun _ _ => .error (JwtThrow.errObj "JsonWebTokenError" "invalid signature"))
        none (some "tok") = .error noVerifyKeyMsg :=
  verify_invalidSig_returns_missingKey_raises
    (fun _ _ => .error (JwtThrow.errObj "JsonWebTokenError" "invalid signature"))
    "tok" (by decide) "key" (by decide)
    (JwtThrow.errObj "JsonWebTokenError" "invalid signature") rfl

/-- C8: `verify` of an undefined token returns a result with a null subject
and a non-null error, for every signature-check oracle (so no signature check
can influence the outcome) and every configured verify key, including none. -/
theorem verify_undefined_token_no_sig_check
    (jv : JwtVerifier) (authVerifyKey : Option String) :
    verify jv authVerifyKey none
      = .ok { subject := none, error := some notAuthenticatedMsg } := by
  simp [verify, strFalsy]

/-- C10: whenever `verify` returns a result (does not raise), exactly one of
`subject` and `error` is non-null. -/
theorem verify_result_exactly_one_field
    (jv : JwtVerifier) (authVerifyKey authToken : Option String)
    (r : AuthVerificationResult)
    (h : verify jv authVerifyKey authToken = .ok r) :
    (r.subject ≠ none ∧ r.error = none) ∨ (r.subject = none ∧ r.error ≠ none) := by
  unfold verify at h
  split at h
  · right
    cases h
    exact ⟨rfl, by simp⟩
  · split at h
    · cases h
    · split at h
      · left
        cases h
        exact ⟨by simp, rfl⟩
      · right
        cases h
        exact ⟨rfl, by simp⟩

/-- C10 witness: a concrete successful verification, whose result has a
subject and no error. -/
theorem verify_result_exactly_one_field_witness :
    ((({ subject := some { id := 1 }, error := none } : AuthVerificationResult)).subject ≠ none
        ∧ (({ subject := some { id := 1 }, error := none } : AuthVerificationResult)).error = none)
      ∨ ((({ subject := some { id := 1 }, error := none } : AuthVerificationResult)).subject = none
        ∧ (({ subject := some { id := 1 }, error := none } : AuthVerificationResult)).error ≠ none) :=
  verify_result_exactly_one_field (fun _ _ => .ok { id := 1 })
    (some "key") (some "tok") { subject := some { id := 1 }, error := none } rfl

/-- Helper: a hexadecimal digit is never a slash. -/
theorem hexDigit_ne_slash (n : Nat) : Storage.hexDigit n ≠ '/' := by
  have h : n % 16 < 16 := Nat.mod_lt _ (by norm_num)
  unfold Storage.hexDigit
  generalize n % 16 = m at h ⊢
  interval_cases m <;> decide

/-- Helper: no character produced by the per-character encoding is a slash:
unreserved characters exclude the slash, and percent-escapes consist of a
percent sign and hex digits. -/
theorem encodeCharUtf8_ne_slash (c c' : Char)
    (hmem : c' ∈ Storage.encodeCharUtf8 c) : c' ≠ '/' := by
  unfold Storage.encodeCharUtf8 at hmem
  split at hmem
  case isTrue hres =>
    rcases List.mem_singleton.mp hmem with rfl
    intro hc
    rw [hc] at hres
    exact absurd hres (by decide)
  case isFalse hres =>
    rcases List.mem_flatten.mp hmem with ⟨piece, hpiece, hc'⟩
    rcases List.mem_map.mp hpiece with ⟨b, _, rfl⟩
    simp only [Storage.percentByte, List.mem_cons, List.not_mem_nil, or_false] at hc'
    rcases hc' with rfl | rfl | rfl
    · decide
    · exact hexDigit_ne_slash _
    · exact hexDigit_ne_slash _

/-- Helper: encodeURIComponent never produces a slash. -/
theorem encodeURIComponent_ne_slash (s : String) (c : Char)
    (h : c ∈ (Storage.encodeURIComponent s).toList) : c ≠ '/' := by
  have h' : c ∈ (s.toList.map Storage.encodeCharUtf8).flatten := h
  rcases List.mem_flatten.mp h' with ⟨piece, hp, hc⟩
  rcases List.mem_map.mp hp with ⟨c0, _, rfl⟩
  exact encodeCharUtf8_ne_slash c0 c hc

/-- Helper: splitting always yields at least one segment. -/
theorem splitSegs_ne_nil (xs : List Char) : Storage.splitSegs xs ≠ [] := by
  cases xs with
  | nil => simp [Storage.splitSegs]
  | cons c rest =>
    unfold Storage.splitSegs
    split
    · simp
    · split <;> simp

/-- Helper: a slash-free character list splits into itself alone. -/
theorem splitSegs_no_slash (xs : List Char) (h : ∀ c ∈ xs, c ≠ '/') :
    Storage.splitSegs xs = [xs] := by
  induction xs with
  | nil => rfl
  | cons c rest ih =>
    have hc : c ≠ '/' := h c (by simp)
    have hrest : ∀ c' ∈ rest, c' ≠ '/' := fun c' hc' => h c' (by simp [hc'])
    simp only [Storage.splitSegs]
    rw [if_neg hc, ih hrest]

/-- Helper: splitting a slash-free prefix followed by a slash peels off the
prefix as one segment. -/
theorem splitSegs_append_slash (xs rest : List Char) (h : ∀ c ∈ xs, c ≠ '/') :
    Storage.splitSegs (xs ++ '/' :: rest) = xs :: Storage.splitSegs rest := by
  induction xs with
  | nil =>
    simp only [List.nil_append]
    simp [Storage.splitSegs]
  | cons c xs' ih =>
    have hc : c ≠ '/' := h c (by simp)
    have h' : ∀ c' ∈ xs', c' ≠ '/' := fun c' hm => h c' (by simp [hm])
    simp only [List.cons_append, Storage.splitSegs, List.append_eq]
    rw [if_neg hc, ih h']

/-- Helper: splitting the slash-join of a non-empty list of slash-free
segments recovers exactly the segments. -/
theorem splitSegs_joinSegs (l : List (List Char)) (hne : l ≠ [])
    (h : ∀ seg ∈ l, ∀ c ∈ seg, c ≠ '/') :
    Storage.splitSegs (Storage.joinSegs l) = l := by
  induction l with
  | nil => exact absurd rfl hne
  | cons x t ih =>
    cases t with
    | nil =>
      simp only [Storage.joinSegs]
      exact splitSegs_no_slash x (h x (by simp))
    | cons y rest =>
      simp only [Storage.joinSegs]
      rw [splitSegs_append_slash x _ (h x (by simp))]
      rw [ih (by simp) (fun seg hs => h seg (List.mem_cons_of_mem _ hs))]

/-- C6: for every non-empty path, `getUrl` is the pure function that
percent-encodes each "/"-separated segment of the path independently and
rejoins them with "/" into the view URL (no request is issued: the result is
fully determined by the path and configuration); moreover splitting the
rebuilt path on "/" recovers exactly the encoded segments, so the "/"
separators of the original path are preserved and no encoded segment
introduces a new one. -/
theorem getUrl_encodes_segments (cfg : Storage.StorageConfig) (path : String)
    (h : path ≠ "") :
    Storage.getUrl cfg path
        = .ok (cfg.dabblebaseUrl ++ "/api/project/" ++ cfg.projectId
            ++ "/storage/view/" ++ String.mk (Storage.joinSegs (Storage.encodeSegs path))
            ++ "?X-Project-Token="
            ++ Storage.encodeURIComponent (cfg.projectToken.getD ""))
      ∧ Storage.splitSegs (Storage.joinSegs (Storage.encodeSegs path))
        = Storage.encodeSegs path := by
  constructor
  · simp [Storage.getUrl, h]
  · apply splitSegs_joinSegs
    · have := splitSegs_ne_nil path.toList
      simp only [Storage.encodeSegs, ne_eq, List.map_eq_nil_iff]
      exact this
    · intro seg hs c hc
      rcases List.mem_map.mp hs with ⟨s0, _, rfl⟩
      exact encodeURIComponent_ne_slash _ c hc

/-- C6 witness: a concrete configuration and the path "a b/c.png", whose
first segment contains a space that must be percent-encoded. -/
theorem getUrl_encodes_segments_witness :
    Storage.getUrl cfgEx "a b/c.png"
        = .ok (cfgEx.dabblebaseUrl ++ "/api/project/" ++ cfgEx.projectId
            ++ "/storage/view/"
            ++ String.mk (Storage.joinSegs (Storage.encodeSegs "a b/c.png"))
            ++ "?X-Project-Token="
            ++ Storage.encodeURIComponent (cfgEx.projectToken.getD ""))
      ∧ Storage.splitSegs (Storage.joinSegs (Storage.encodeSegs "a b/c.png"))
        = Storage.encodeSegs "a b/c.png" :=
  getUrl_encodes_segments cfgEx "a b/c.png" (by decide)

/-- C7: `upload` with an absent file or an empty path fails its precondition
check synchronously: whatever the network would answer, no request is issued
(the request list is empty) and the corresponding missing-precondition error
is raised. -/
theorem upload_precondition_before_request (cfg : Storage.StorageConfig)
    (file : Option Storage.FileObj) (path : String)
    (fetch : Storage.HttpRequest → Storage.HttpResponse)
    (h : file = none ∨ path = "") :
    Storage.upload cfg file path fetch = ([], .error Storage.uploadFileMissingMsg)
      ∨ Storage.upload cfg file path fetch = ([], .error Storage.uploadPathMissingMsg) := by
  rcases h with h | h
  · subst h
    left
    rfl
  · subst h
    cases file with
    | none =>
      left
      rfl
    | some f =>
      right
      simp [Storage.upload]

/-- C7 witness: uploading with no file and an empty path issues no request
and raises the missing-file error. -/
theorem upload_precondition_before_request_witness :
    Storage.upload cfgEx none "" (fun _ => respA)
        = ([], .error Storage.uploadFileMissingMsg)
      ∨ Storage.upload cfgEx none "" (fun _ => respA)
        = ([], .error Storage.uploadPathMissingMsg) :=
  upload_precondition_before_request cfgEx none "" (fun _ => respA) (Or.inl rfl)

/-- C2 (amended): on a non-success HTTP response, `upload` and `list` raise
an error interpolating the response status, status text and body text, while
`delete` raises an error interpolating the status and status text only: its
outcome is unchanged under any variation of the response that preserves
`ok`, `status` and `statusText`, so the body text is never inspected. No
typed result is returned in any of these cases. -/
theorem storage_transport_errors (cfg : Storage.StorageConfig)
    (f : Storage.FileObj) (path : String) (hpath : path ≠ "")
    (resp resp' : Storage.HttpResponse)
    (hok : resp.ok = false) (hok' : resp'.ok = false)
    (hst : resp'.status = resp.status) (hstt : resp'.statusText = resp.statusText) :
    (Storage.upload cfg (some f) path (fun _ => resp)).2
        = .error (Storage.uploadFailMsg resp.status resp.statusText resp.bodyText)
      ∧ (Storage.list cfg (fun _ => resp)).2
        = .error (Storage.listFailMsg resp.status resp.statusText resp.bodyText)
      ∧ (Storage.delete cfg path (fun _ => resp)).2
        = .error (Storage.deleteFailMsg resp.status resp.statusText)
      ∧ (Storage.delete cfg path (fun _ => resp')).2
        = (Storage.delete cfg path (fun _ => resp)).2 := by
  have hbeq : (path == "") = false := by
    simp [hpath]
  refine ⟨?_, ?_, ?_, ?_⟩
  · simp [Storage.upload, hbeq, hok]
  · simp [Storage.list, hok]
  · simp [Storage.delete, hbeq, hok]
  · simp [Storage.delete, hbeq, hok, hok', hst, hstt]

/-- C2 witness: a concrete non-success response pair differing only in body
text, with a valid upload and delete path. -/
theorem storage_transport_errors_witness :
    (Storage.upload cfgEx (some { name := "f" }) "file.txt" (fun _ => respA)).2
        = .error (Storage.uploadFailMsg respA.status respA.statusText respA.bodyText)
      ∧ (Storage.list cfgEx (fun _ => respA)).2
        = .error (Storage.listFailMsg respA.status respA.statusText respA.bodyText)
      ∧ (Storage.delete cfgEx "file.txt" (fun _ => respA)).2
        = .error (Storage.deleteFailMsg respA.status respA.statusText)
      ∧ (Storage.delete cfgEx "file.txt" (fun _ => respB)).2
        = (Storage.delete cfgEx "file.txt" (fun _ => respA)).2 :=
  storage_transport_errors cfgEx { name := "f" } "file.txt" (by decide)
    respA respB rfl rfl rfl rfl

/-- C2 counterexample: `delete` does not inspect the response body text when
building its error. Two non-success responses that agree on status and
status text but carry different bodies ("body-A" and "body-B") produce the
same raised error, which mentions only the status and status text; so the
claim that every storage operation's transport error is constructed after
inspecting the body text fails for `delete`. -/
theorem storage_delete_ignores_body_cex :
    Storage.delete cfgEx "file.txt" (fun _ => respA)
        = Storage.delete cfgEx "file.txt" (fun _ => respB)
      ∧ (Storage.delete cfgEx "file.txt" (fun _ => respA)).2
        = .error (Storage.deleteFailMsg 500 "Internal Server Error") := by
  constructor
  · decide
  · decide

/-- Helper: when every user's metadata list is non-empty, the filterMap the
presence handler performs over the entries is the map taking each entry to
the event on its first metadata record. -/
theorem presence_filterMap_eq_map
    (f : String → Realtime.PresenceUser → Realtime.PresenceEvent) :
    ∀ (l : List (String × List Realtime.PresenceUser)),
      (∀ p ∈ l, p.2 ≠ []) →
      (l.filterMap fun p =>
        match p.2 with
        | [] => none
        | m :: _ => some (f p.1 m))
        = l.map fun p => f p.1 p.2.headI := by
  intro l
  induction l with
  | nil =>
    intro _
    rfl
  | cons p t ih =>
    intro h
    rcases p with ⟨u, metas⟩
    cases metas with
    | nil => exact absurd rfl (h (u, []) (by simp))
    | cons m rest =>
      simp only [List.filterMap_cons, List.map_cons]
      rw [ih fun q hq => h q (List.mem_cons_of_mem _ hq)]
      rfl

/-- C1: on a presence diff in which every listed user has at least one
metadata record, the handler invokes onPresenceJoin once per user of
diff.joins (with that user's first metadata record, in entry order), then
onPresenceLeave once per user of diff.leaves (first metadata record), and
finally onReceivePresenceState with exactly diff.joins — the diff alone,
independent of any previously joined users, which are therefore omitted
from the rebuilt snapshot. -/
theorem presence_diff_join_leave_state
    (joins leaves : List (String × List Realtime.PresenceUser))
    (hj : ∀ p ∈ joins, p.2 ≠ []) (hl : ∀ p ∈ leaves, p.2 ≠ []) :
    Realtime.handlePresenceDiff joins leaves
      = (joins.map fun p => Realtime.PresenceEvent.join p.1 p.2.headI)
        ++ (leaves.map fun p => Realtime.PresenceEvent.leave p.1 p.2.headI)
        ++ [Realtime.PresenceEvent.state joins] := by
  unfold Realtime.handlePresenceDiff
  rw [presence_filterMap_eq_map _ joins hj, presence_filterMap_eq_map _ leaves hl]

/-- C1 witness: the diff with joins u1 at online_at t1 and no leaves yields
exactly one join callback for u1 followed by the snapshot containing u1. -/
theorem presence_diff_join_leave_state_witness :
    Realtime.handlePresenceDiff [("u1", [⟨"t1"⟩])] []
      = [Realtime.PresenceEvent.join "u1" ⟨"t1"⟩,
         Realtime.PresenceEvent.state [("u1", [⟨"t1"⟩])]] :=
  (presence_diff_join_leave_state [("u1", [⟨"t1"⟩])] []
    (by decide) (by decide)).trans (by decide)

/-- Helper: in a list of entries whose keys are pairwise distinct, two
entries with the same key carry the same value. -/
theorem assoc_keys_nodup_eq {β : Type} (l : List (String × β))
    (hnd : (l.map Prod.fst).Nodup) (u : String) (a b : β)
    (ha : (u, a) ∈ l) (hb : (u, b) ∈ l) : a = b := by
  induction l with
  | nil => cases ha
  | cons p t ih =>
    rcases p with ⟨k, c⟩
    have hnd' : (t.map Prod.fst).Nodup := (List.nodup_cons.mp hnd).2
    have hk : k ∉ t.map Prod.fst := (List.nodup_cons.mp hnd).1
    rcases List.mem_cons.mp ha with h1 | h1
    · rcases List.mem_cons.mp hb with h2 | h2
      · rw [Prod.mk.injEq] at h1 h2
        rw [h1.2, h2.2]
      · exfalso
        apply hk
        rw [Prod.mk.injEq] at h1
        rw [← h1.1]
        exact List.mem_map_of_mem Prod.fst h2
    · rcases List.mem_cons.mp hb with h2 | h2
      · exfalso
        apply hk
        rw [Prod.mk.injEq] at h2
        rw [← h2.1]
        exact List.mem_map_of_mem Prod.fst h1
      · exact ih hnd' h1 h2

/-- C9: for every presence diff (keys of a JavaScript object being pairwise
distinct), independently on each side: a user whose metadata list in
diff.joins is empty triggers no onPresenceJoin callback, and a user whose
metadata list in diff.leaves is empty triggers no onPresenceLeave
callback. -/
theorem presence_empty_metas_no_event
    (joins leaves : List (String × List Realtime.PresenceUser))
    (u v : String) (m : Realtime.PresenceUser)
    (hnd : (joins.map Prod.fst).Nodup)
    (hnl : (leaves.map Prod.fst).Nodup) :
    ((u, ([] : List Realtime.PresenceUser)) ∈ joins →
      Realtime.PresenceEvent.join u m ∉ Realtime.handlePresenceDiff joins leaves)
      ∧ ((v, ([] : List Realtime.PresenceUser)) ∈ leaves →
        Realtime.PresenceEvent.leave v m ∉ Realtime.handlePresenceDiff joins leaves) := by
  constructor
  · intro hu hmem
    unfold Realtime.handlePresenceDiff at hmem
    rcases List.mem_append.mp hmem with hmem' | hstate
    · rcases List.mem_append.mp hmem' with hjoin | hleave
      · rcases List.mem_filterMap.mp hjoin with ⟨p, hp, heq⟩
        rcases p with ⟨k, metas⟩
        cases metas with
        | nil => cases heq
        | cons m0 rest =>
          simp only [Option.some.injEq, Realtime.PresenceEvent.join.injEq] at heq
          rcases heq with ⟨rfl, rfl⟩
          have := assoc_keys_nodup_eq joins hnd k [] (m0 :: rest) hu hp
          cases this
      · rcases List.mem_filterMap.mp hleave with ⟨p, hp, heq⟩
        rcases p with ⟨k, metas⟩
        cases metas with
        | nil => cases heq
        | cons m0 rest => cases heq
    · rcases List.mem_singleton.mp hstate
  · intro hv hmem
    unfold Realtime.handlePresenceDiff at hmem
    rcases List.mem_append.mp hmem with hmem' | hstate
    · rcases List.mem_append.mp hmem' with hjoin | hleave
      · rcases List.mem_filterMap.mp hjoin with ⟨p, hp, heq⟩
        rcases p with ⟨k, metas⟩
        cases metas with
        | nil => cases heq
        | cons m0 rest => cases heq
      · rcases List.mem_filterMap.mp hleave with ⟨p, hp, heq⟩
        rcases p with ⟨k, metas⟩
        cases metas with
        | nil => cases heq
        | cons m0 rest =>
          simp only [Option.some.injEq, Realtime.PresenceEvent.leave.injEq] at heq
          rcases heq with ⟨rfl, rfl⟩
          have := assoc_keys_nodup_eq leaves hnl k [] (m0 :: rest) hv hp
          cases this
    · rcases List.mem_singleton.mp hstate

/-- C9 witness: two one-sided diffs — u1 joining with an empty metadata
list and no leaves, and w leaving with an empty metadata list and no
joins — trigger no join callback for u1 and no leave callback for w. -/
theorem presence_empty_metas_no_event_witness :
    Realtime.PresenceEvent.join "u1" ⟨"x"⟩
        ∉ Realtime.handlePresenceDiff [("u1", []), ("u2", [⟨"t"⟩])] []
      ∧ Realtime.PresenceEvent.leave "w" ⟨"x"⟩
        ∉ Realtime.handlePresenceDiff [] [("w", [])] :=
  ⟨(presence_empty_metas_no_event [("u1", []), ("u2", [⟨"t"⟩])] []
      "u1" "w" ⟨"x"⟩ (by decide) (by decide)).1 (by decide),
    (presence_empty_metas_no_event [] [("w", [])]
      "u1" "w" ⟨"x"⟩ (by decide) (by decide)).2 (by decide)⟩

/-- C5: when a channel join fails and a connect-error callback was supplied,
the join error continuation of every realtime connection kind —
`listenToDbChanges`, `listenForBroadcasts` (for any channel name) and
`listenToPresenceChanges` — invokes the caller's connect-error callback
(after logging, as the last action performed) and then raises the fatal
join error: its outcome is the thrown error, never a normal return. -/
theorem join_error_callback_then_raise (err channelName : String) :
    ((Realtime.dbJoinErrorHandler true err).1
          = [Realtime.RtAction.logError Realtime.dbJoinLogMsg,
             Realtime.RtAction.connectErrorCallback err]
        ∧ (Realtime.dbJoinErrorHandler true err).2
          = Except.error Realtime.dbJoinFatalMsg)
      ∧ ((Realtime.broadcastJoinErrorHandler channelName true err).1
          = [Realtime.RtAction.logError (Realtime.broadcastJoinLogMsg channelName),
             Realtime.RtAction.connectErrorCallback err]
        ∧ (Realtime.broadcastJoinErrorHandler channelName true err).2
          = Except.error (Realtime.broadcastJoinFatalMsg channelName))
      ∧ ((Realtime.presenceJoinErrorHandler true err).1
          = [Realtime.RtAction.logError Realtime.presenceJoinLogMsg,
             Realtime.RtAction.connectErrorCallback err]
        ∧ (Realtime.presenceJoinErrorHandler true err).2
          = Except.error Realtime.presenceJoinFatalMsg) :=
  ⟨⟨rfl, rfl⟩, ⟨rfl, rfl⟩, ⟨rfl, rfl⟩⟩

/-- C3: `disconnect` first leaves the channel and then closes the socket;
it is a total state transformer (never raises), the socket is closed and
the channel left afterwards, and a second `disconnect` is a no-op: the
caller observes exactly one effective close. -/
theorem disconnect_leave_close_idempotent (s : Realtime.ConnState) :
    Realtime.disconnect s
        = Realtime.socketDisconnect (Realtime.channelLeave s)
      ∧ Realtime.disconnect (Realtime.disconnect s) = Realtime.disconnect s
      ∧ (Realtime.disconnect s).socketOpen = false
      ∧ (Realtime.disconnect s).channelJoined = false :=
  ⟨rfl, rfl, rfl, rfl⟩
